import Mathlib

/-!
Shallow embedding of the quota-enforced API credential subsystem of the
html2pdf API gateway: API key issuance/validation (`ApiKeysService`),
quota evaluation and usage counters (`QuotaService`, `RedisService`),
refresh-token rotation (`AuthService.refreshTokens`), the PDF proxy
billing path (`PdfProxyService`) and the symmetric-encryption helpers
(`EncryptionService`).  JavaScript numbers are modelled as `Int`,
nullable fields as `Option`, thrown exceptions as `Except`/`Option`
results, and the repositories/Redis as explicit state or lookup
functions passed to each operation.
-/

namespace Html2Pdf

/-- JavaScript truthiness of a nullable number: `null`, `0` (and `NaN`)
are falsy, every other number is truthy. -/
def jsTruthyInt : Option Int → Bool
  | none => false
  | some n => n != 0

/-- `lim ? lim - used : null` — the truthiness-guarded subtraction used in
the denial branches of `QuotaService.checkQuota`. -/
def jsSubOrNull (lim : Option Int) (used : Int) : Option Int :=
  if jsTruthyInt lim then some (lim.getD 0 - used) else none

/-- `lim !== null ? lim - used : null` — the null-guarded subtraction used
in the allowed branch of `QuotaService.checkQuota`. -/
def optSub (lim : Option Int) (used : Int) : Option Int :=
  match lim with
  | none => none
  | some l => some (l - used)

/-- `ApiKeyType` enum from the entities module. -/
inductive ApiKeyType where
  | live
  | test
deriving DecidableEq

/-- The plan fields consulted by the quota, validation and PDF-proxy
paths (`Plan` entity). `null` limits mean unlimited. -/
structure Plan where
  id : String
  name : String
  dailyRequestLimit : Option Int
  monthlyRequestLimit : Option Int
  maxFileSizeMB : Int
  maxPagesPerPdf : Option Int
deriving DecidableEq

/-- The user fields consulted by validation and auth (`User` entity). -/
structure User where
  id : String
  email : String
  role : String
  isActive : Bool
  isEmailVerified : Bool
  plan : Plan
deriving DecidableEq

/-- The API key fields consulted by `ApiKeysService` validation
(`ApiKey` entity, with its loaded `user` relation). -/
structure ApiKey where
  id : String
  keyHash : String
  encryptedKey : Option String
  keyType : ApiKeyType
  isActive : Bool
  isRevoked : Bool
  expiresAt : Option Int
  allowedDomains : List String
  lastUsedAt : Option Int
  uaMeta : Option String
  user : User
deriving DecidableEq

/-- Process-wide configuration consulted by the embedded services
(`ConfigService`). -/
structure Config where
  apiKeyPfx : String
  enforceDailyQuota : Bool
  enforceMonthlyQuota : Bool
deriving DecidableEq

/-! ## EncryptionService -/

namespace EncryptionService

/-- `"*".repeat(n)` for a possibly negative JavaScript count: a negative
count raises a `RangeError`, modelled as `none`. -/
def jsRepeat (c : Char) (n : Int) : Option String :=
  if n < 0 then none else some (String.mk (List.replicate n.toNat c))

/-- `s.substring(a, b)` with in-range clamping (JS `String.prototype.substring`
for `a ≤ b`). -/
def jsSubstring (s : String) (a b : Nat) : String :=
  String.mk ((s.data.drop a).take (b - a))

/-- `EncryptionService.maskKey`: keeps the first 4 and last
`visibleChars` characters, masking the middle with `*`.  The middle is
built with `"*".repeat(key.length - 4 - visibleChars)`, which raises
(`none`) when that count is negative. -/
def maskKey (key : String) (visibleChars : Nat) : Option String :=
  if key.length ≤ visibleChars then
    some (String.mk (List.replicate key.length '*'))
  else
    let start := jsSubstring key 0 4
    let finish := jsSubstring key (key.length - visibleChars) key.length
    match jsRepeat '*' ((key.length : Int) - 4 - visibleChars) with
    | none => none
    | some middle => some (start ++ middle ++ finish)

/-- UTF-8 bytes of an (ASCII) configuration string, as used by
`Buffer.from`. -/
def strBytes (s : String) : List Nat :=
  s.data.map Char.toNat

/-- `EncryptionService.getEncryptionKey`: key material shorter than 32
bytes is stretched with `crypto.scryptSync(keyString, "salt", 32)`
(passed in as the deterministic function `scrypt`); otherwise exactly the
first 32 bytes are kept. -/
def getEncryptionKey (scrypt : String → String → Nat → List Nat)
    (keyString : String) : List Nat :=
  if keyString.length < 32 then scrypt keyString "salt" 32
  else (strBytes keyString).take 32

end EncryptionService

/-! ## ApiKeysService -/

namespace ApiKeysService

/-- One character of the `[a-f0-9]` class of the key-format regex. -/
def isLowerHexDigit (c : Char) : Bool :=
  ('a' ≤ c && c ≤ 'f') || ('0' ≤ c && c ≤ '9')

/-- `[a-f0-9]{64}` applied to the remainder of the key. -/
def hex64 (cs : List Char) : Bool :=
  cs.length == 64 && cs.all isLowerHexDigit

/-- The anchored key-format regex
`^{pfx}_(live|test)_[a-f0-9]{64}$` from `validateApiKey`. -/
def keyFormatValid (pfx : String) (key : String) : Bool :=
  let pl := pfx.data
  let kd := key.data
  (kd.take (pl.length + 6) == pl ++ "_live_".data
      && hex64 (kd.drop (pl.length + 6)))
    || (kd.take (pl.length + 6) == pl ++ "_test_".data
      && hex64 (kd.drop (pl.length + 6)))

/-- Result shape of `validateApiKey` / `validateApiKeyById`. -/
structure ValidationResult where
  isValid : Bool
  user : Option User
  apiKey : Option ApiKey
  reason : Option String
deriving DecidableEq

/-- A failed validation outcome together with "no row written". -/
def vFail (r : String) : ValidationResult × Option ApiKey :=
  ({ isValid := false, user := none, apiKey := none, reason := some r }, none)

/-- The sensitive-field stripping applied to the returned credential:
`encryptedKey: null, keyHash: ""`. -/
def stripSensitive (k : ApiKey) : ApiKey :=
  { k with encryptedKey := none, keyHash := "" }

/-- `ApiKeysService.isDomainAllowed`, verbatim from the source: the
simplified check allows every domain. -/
def isDomainAllowed (_userAgent : String) (_allowedDomains : List String) : Bool :=
  true

/-- `apiKey.expiresAt && apiKey.expiresAt < new Date()` (a `Date` object
is always truthy). -/
def isExpired (k : ApiKey) (now : Int) : Bool :=
  match k.expiresAt with
  | none => false
  | some e => e < now

/-- `ApiKeysService.validateApiKey` (validation by raw key).  `hashFn`
models the SHA-256 digest used for lookup, `findByHash` the repository
query by `keyHash`.  The second component is the row written by
`apiKeyRepository.save` on success (`none` = no write). -/
def validateApiKey (cfg : Config) (now : Int) (hashFn : String → String)
    (findByHash : String → Option ApiKey) (key : String)
    (uaReq : Option String) : ValidationResult × Option ApiKey :=
  if key = "" then vFail "Invalid API key format"
  else if ¬ keyFormatValid cfg.apiKeyPfx key then vFail "Invalid API key format"
  else
    match findByHash (hashFn key) with
    | none => vFail "API key not found"
    | some k =>
      if ¬ k.isActive then vFail "API key is disabled"
      else if k.isRevoked then vFail "API key has been revoked"
      else if isExpired k now then vFail "API key has expired"
      else if ¬ k.user.isActive then vFail "User account is deactivated"
      else if k.allowedDomains.length > 0
          && ¬ isDomainAllowed (uaReq.getD "") k.allowedDomains then
        vFail "API key access denied from this domain"
      else
        let saved := { k with lastUsedAt := some now, uaMeta := uaReq }
        ({ isValid := true, user := some saved.user,
           apiKey := some (stripSensitive saved), reason := none }, some saved)

/-- `ApiKeysService.validateApiKeyById` (validation by credential id).
`findById` models the repository query by primary key. -/
def validateApiKeyById (now : Int) (findById : String → Option ApiKey)
    (apiKeyId : String) (uaReq : Option String) :
    ValidationResult × Option ApiKey :=
  if apiKeyId = "" then vFail "API key ID is required"
  else
    match findById apiKeyId with
    | none => vFail "API key not found"
    | some k =>
      if ¬ k.isActive then vFail "API key is inactive"
      else if k.isRevoked then vFail "API key has been revoked"
      else if isExpired k now then vFail "API key has expired"
      else if ¬ k.user.isActive then vFail "User account is deactivated"
      else if k.allowedDomains.length > 0
          && ¬ isDomainAllowed (uaReq.getD "") k.allowedDomains then
        vFail "API key access denied from this domain"
      else
        let saved := { k with lastUsedAt := some now, uaMeta := uaReq }
        ({ isValid := true, user := some saved.user,
           apiKey := some (stripSensitive saved), reason := none }, some saved)

end ApiKeysService

/-! ## QuotaService -/

namespace QuotaService

/-- `quotaInfo` shape of `QuotaService.checkQuota`. -/
structure QuotaInfo where
  dailyUsed : Int
  dailyLimit : Option Int
  monthlyUsed : Int
  monthlyLimit : Option Int
  remainingDaily : Option Int
  remainingMonthly : Option Int
deriving DecidableEq

/-- Result shape of `QuotaService.checkQuota`. -/
structure QuotaCheck where
  allowed : Bool
  reason : Option String
  quotaInfo : QuotaInfo
deriving DecidableEq

/-- `if (enforce && limit !== null) { if (used >= limit) ... }`: returns
the limit value when the branch denies. -/
def quotaBreached (enforce : Bool) (lim : Option Int) (used : Int) : Option Int :=
  if enforce then
    match lim with
    | none => none
    | some l => if used ≥ l then some l else none
  else none

/-- `QuotaService.checkQuota`.  The current daily/monthly usage figures
(read from Redis with DB fallback) are passed in as `d` and `m`. -/
def checkQuota (cfg : Config) (t : ApiKeyType) (user : User) (d m : Int) :
    QuotaCheck :=
  if t = ApiKeyType.test then
    { allowed := true, reason := none,
      quotaInfo :=
        { dailyUsed := 0, dailyLimit := none, monthlyUsed := 0,
          monthlyLimit := none, remainingDaily := none,
          remainingMonthly := none } }
  else
    let p := user.plan
    match quotaBreached cfg.enforceDailyQuota p.dailyRequestLimit d with
    | some l =>
      { allowed := false,
        reason := some ("Daily quota exceeded. Limit: " ++ toString l
          ++ " requests per day."),
        quotaInfo :=
          { dailyUsed := d, dailyLimit := p.dailyRequestLimit,
            monthlyUsed := m, monthlyLimit := p.monthlyRequestLimit,
            remainingDaily := some 0,
            remainingMonthly := jsSubOrNull p.monthlyRequestLimit m } }
    | none =>
      match quotaBreached cfg.enforceMonthlyQuota p.monthlyRequestLimit m with
      | some l =>
        { allowed := false,
          reason := some ("Monthly quota exceeded. Limit: " ++ toString l
            ++ " requests per month."),
          quotaInfo :=
            { dailyUsed := d, dailyLimit := p.dailyRequestLimit,
              monthlyUsed := m, monthlyLimit := p.monthlyRequestLimit,
              remainingDaily := jsSubOrNull p.dailyRequestLimit d,
              remainingMonthly := some 0 } }
      | none =>
        { allowed := true, reason := none,
          quotaInfo :=
            { dailyUsed := d, dailyLimit := p.dailyRequestLimit,
              monthlyUsed := m, monthlyLimit := p.monthlyRequestLimit,
              remainingDaily := optSub p.dailyRequestLimit d,
              remainingMonthly := optSub p.monthlyRequestLimit m } }

/-- `RedisService.getCounter`: the cached value, or `0` when the key is
absent. -/
def getCounter (cache : Option Int) : Int :=
  match cache with
  | none => 0
  | some v => v

/-- `QuotaService.getDailyUsage`: the cached counter when positive, else
the durable count; the second component is the cache write performed
(`(value, ttlSeconds)`, `none` = no write). -/
def getDailyUsage (cache : Option Int) (dbCount : Int) :
    Int × Option (Int × Int) :=
  let cached := getCounter cache
  if cached > 0 then (cached, none)
  else if dbCount > 0 then (dbCount, some (dbCount, 86400))
  else (dbCount, none)

/-- `QuotaService.getMonthlyUsage`: as `getDailyUsage` but with a
`daysInMonth * 86400` TTL on the backfill write. -/
def getMonthlyUsage (cache : Option Int) (dbCount : Int)
    (daysInMonth : Int) : Int × Option (Int × Int) :=
  let cached := getCounter cache
  if cached > 0 then (cached, none)
  else if dbCount > 0 then (dbCount, some (dbCount, daysInMonth * 86400))
  else (dbCount, none)

/-- A live Redis counter entry: current value and absolute expiry time. -/
structure CounterEntry where
  value : Int
  expiresAt : Int
deriving DecidableEq

/-- `RedisService.incrementCounter`: `INCR` then, exactly when the new
count is 1 (first increment), `EXPIRE key windowSeconds`. -/
def incrementCounter (now : Int) (entry : Option CounterEntry)
    (windowSeconds : Int) : Int × CounterEntry :=
  let count := (match entry with | none => 0 | some e => e.value) + 1
  if count = 1 then (count, { value := count, expiresAt := now + windowSeconds })
  else (count, { value := count,
                 expiresAt := (match entry with | none => 0 | some e => e.expiresAt) })

/-- `QuotaService.incrementUsage`: increments the daily counter with a
fixed `86400` second window and the monthly counter with a
`daysInMonth * 86400` second window; returns the two updated entries. -/
def incrementUsage (now : Int) (daysInMonth : Int)
    (daily monthly : Option CounterEntry) : CounterEntry × CounterEntry :=
  ((incrementCounter now daily 86400).2,
   (incrementCounter now monthly (daysInMonth * 86400)).2)

/-- Modelled from the spec: the timestamp of the end of the calendar day
containing `now` ("sets an expiry covering the remainder of the period
(to end of day ...)"), for comparison with the expiry the code sets. -/
def specEndOfDay (now : Int) : Int :=
  (now / 86400 + 1) * 86400

end QuotaService

/-! ## AuthService (refresh-token rotation) -/

namespace AuthService

/-- JWT payload carried by access and refresh tokens. -/
structure JwtPayload where
  sub : String
  email : String
  role : String
deriving DecidableEq

/-- Stored `RefreshToken` row: `token` is the SHA-256 hash of the raw
refresh token, never the raw value. -/
structure RefreshTokenRow where
  token : String
  userId : String
  expiresAt : Int
  isRevoked : Bool
  revokedAt : Option Int
  replacedByToken : Option String
  ipAddress : Option String
  userAgent : Option String
deriving DecidableEq

/-- User projection of `AuthResponse`. -/
structure AuthUserView where
  id : String
  email : String
  role : String
  isEmailVerified : Bool
  planId : String
  planName : String
deriving DecidableEq

/-- `AuthResponse` returned by `login`/`refreshTokens`. -/
structure AuthResponse where
  accessToken : String
  refreshToken : String
  user : AuthUserView
deriving DecidableEq

/-- Collaborators of `AuthService.refreshTokens`: JWT verification and
signing (`jwtService`), the SHA-256 digest `h`, the user repository
lookup and the clock in milliseconds. -/
structure AuthEnv where
  jwtVerify : String → Option JwtPayload
  h : String → String
  signAccess : JwtPayload → String
  signRefresh : JwtPayload → String
  findUser : String → Option User
  now : Int

/-- `refreshTokenRepository.findOne({ token, userId, isRevoked: false })`. -/
def findStored (rows : List RefreshTokenRow) (hashed : String)
    (uid : String) : Option RefreshTokenRow :=
  rows.find? (fun r => r.token == hashed && r.userId == uid && !r.isRevoked)

/-- `refreshTokenRepository.save(storedToken)`: replaces the row with the
stored token hash by its updated version. -/
def saveRow (rows : List RefreshTokenRow) (tokenHash : String)
    (updated : RefreshTokenRow) : List RefreshTokenRow :=
  rows.map (fun r => if r.token == tokenHash then updated else r)

/-- The body of the `try` block of `AuthService.refreshTokens`, with each
internal throw kept as its distinct message.  On success it returns the
new token pair and the updated refresh-token table. -/
def refreshTokensInner (env : AuthEnv) (raw : String) (ip ua : Option String)
    (rows : List RefreshTokenRow) :
    Except String (AuthResponse × List RefreshTokenRow) :=
  match env.jwtVerify raw with
  | none => .error "jwt verification failed"
  | some payload =>
    let hashed := env.h raw
    match findStored rows hashed payload.sub with
    | none => .error "Invalid refresh token"
    | some storedToken =>
      if storedToken.expiresAt < env.now then .error "Refresh token has expired"
      else
        match env.findUser payload.sub with
        | none => .error "User not found or inactive"
        | some user =>
          if ¬ user.isActive then .error "User not found or inactive"
          else
            let newPayload : JwtPayload :=
              { sub := user.id, email := user.email, role := user.role }
            let newAccessToken := env.signAccess newPayload
            let newRefreshToken := env.signRefresh newPayload
            let revokedRow : RefreshTokenRow :=
              { storedToken with
                  isRevoked := true
                  revokedAt := some env.now
                  replacedByToken := some (env.h newRefreshToken) }
            let rows1 := saveRow rows storedToken.token revokedRow
            let newRow : RefreshTokenRow :=
              { token := env.h newRefreshToken, userId := user.id,
                expiresAt := env.now + 604800000, isRevoked := false,
                revokedAt := none, replacedByToken := none,
                ipAddress := ip, userAgent := ua }
            .ok ({ accessToken := newAccessToken,
                   refreshToken := newRefreshToken,
                   user := { id := user.id, email := user.email,
                             role := user.role,
                             isEmailVerified := user.isEmailVerified,
                             planId := user.plan.id,
                             planName := user.plan.name } },
                 rows1 ++ [newRow])

/-- `AuthService.refreshTokens`: the surrounding `catch` collapses every
failure to the single generic `UnauthorizedException`. -/
def refreshTokens (env : AuthEnv) (raw : String) (ip ua : Option String)
    (rows : List RefreshTokenRow) :
    Except String (AuthResponse × List RefreshTokenRow) :=
  match refreshTokensInner env raw ip ua rows with
  | .ok r => .ok r
  | .error _ => .error "Invalid or expired refresh token"

/-- The JWT payload the success path of `refreshTokens` signs for the
freshly loaded user. -/
def rotPayload (user : User) : JwtPayload :=
  { sub := user.id, email := user.email, role := user.role }

/-- The `AuthResponse` the success path of `refreshTokens` returns. -/
def rotResponse (env : AuthEnv) (user : User) : AuthResponse :=
  { accessToken := env.signAccess (rotPayload user)
    refreshToken := env.signRefresh (rotPayload user)
    user := { id := user.id
              email := user.email
              role := user.role
              isEmailVerified := user.isEmailVerified
              planId := user.plan.id
              planName := user.plan.name } }

/-- The revoked version of the redeemed row written by the success path:
revoked, timestamped, pointing at the hash of the new refresh token. -/
def rotRevokedRow (env : AuthEnv) (st : RefreshTokenRow) (user : User) :
    RefreshTokenRow :=
  { st with
      isRevoked := true
      revokedAt := some env.now
      replacedByToken := some (env.h (env.signRefresh (rotPayload user))) }

/-- The persisted successor row holding the hash of the new refresh
token. -/
def rotNewRow (env : AuthEnv) (user : User) (ip ua : Option String) :
    RefreshTokenRow :=
  { token := env.h (env.signRefresh (rotPayload user))
    userId := user.id
    expiresAt := env.now + 604800000
    isRevoked := false
    revokedAt := none
    replacedByToken := none
    ipAddress := ip
    userAgent := ua }

/-- The refresh-token table after a successful redemption: the redeemed
row replaced by its revoked version and exactly one appended successor. -/
def rotRows (env : AuthEnv) (rows : List RefreshTokenRow)
    (st : RefreshTokenRow) (user : User) (ip ua : Option String) :
    List RefreshTokenRow :=
  saveRow rows st.token (rotRevokedRow env st user) ++ [rotNewRow env user ip ua]

end AuthService

/-! ## PdfProxyService -/

namespace PdfProxyService

open QuotaService

/-- Outcome of the proxied conversion call: response byte length and the
optional `x-pdf-pages` header. -/
structure PdfOutcome where
  fileSize : Int
  pagesHeader : Option Int
deriving DecidableEq

/-- `true` exactly on an `ok` result. -/
def isOkE (r : Except String (Int × Int)) : Bool :=
  match r with
  | .ok _ => true
  | .error _ => false

/-- `PdfProxyService.generatePdfFromHtml`: quota check, input size
check, conversion call, output size check, page-limit check, then
counter increment.  Returns the outcome (payload `(fileSize, pages)` or
the thrown message) together with whether `quotaService.incrementUsage`
ran. -/
def generatePdfFromHtml (quota : QuotaCheck) (htmlBytes : Int) (plan : Plan)
    (conv : Except Unit PdfOutcome) : Except String (Int × Int) × Bool :=
  if ¬ quota.allowed then (.error (quota.reason.getD ""), false)
  else
    let maxSizeBytes := plan.maxFileSizeMB * 1024 * 1024
    if htmlBytes > maxSizeBytes then
      (.error ("HTML content too large. Maximum size: "
        ++ toString plan.maxFileSizeMB ++ "MB"), false)
    else
      match conv with
      | .error _ => (.error "PDF service error", false)
      | .ok out =>
        if out.fileSize > maxSizeBytes then
          (.error ("Generated PDF too large. Maximum size: "
            ++ toString plan.maxFileSizeMB ++ "MB"), false)
        else
          let pages := match out.pagesHeader with | none => 1 | some p => p
          if jsTruthyInt plan.maxPagesPerPdf
              && decide (pages > plan.maxPagesPerPdf.getD 0) then
            (.error ("PDF exceeds page limit. Maximum pages: "
              ++ toString (plan.maxPagesPerPdf.getD 0)), false)
          else (.ok (out.fileSize, pages), true)

/-- `PdfProxyService.generatePdfFromUrl`: as the HTML path but with no
input size check (only the generated PDF size is validated). -/
def generatePdfFromUrl (quota : QuotaCheck) (plan : Plan)
    (conv : Except Unit PdfOutcome) : Except String (Int × Int) × Bool :=
  if ¬ quota.allowed then (.error (quota.reason.getD ""), false)
  else
    match conv with
    | .error _ => (.error "PDF service error", false)
    | .ok out =>
      let maxSizeBytes := plan.maxFileSizeMB * 1024 * 1024
      if out.fileSize > maxSizeBytes then
        (.error ("Generated PDF too large. Maximum size: "
          ++ toString plan.maxFileSizeMB ++ "MB"), false)
      else
        let pages := match out.pagesHeader with | none => 1 | some p => p
        if jsTruthyInt plan.maxPagesPerPdf
            && decide (pages > plan.maxPagesPerPdf.getD 0) then
          (.error ("PDF exceeds page limit. Maximum pages: "
            ++ toString (plan.maxPagesPerPdf.getD 0)), false)
        else (.ok (out.fileSize, pages), true)

end PdfProxyService

/-! ## Concrete fixtures used by the witness theorems -/

namespace Fixtures

def cfg0 : Config :=
  { apiKeyPfx := "pdf", enforceDailyQuota := true, enforceMonthlyQuota := true }

def plan0 : Plan :=
  { id := "p1", name := "Free", dailyRequestLimit := some 100,
    monthlyRequestLimit := some 3000, maxFileSizeMB := 5,
    maxPagesPerPdf := some 10 }

def user0 : User :=
  { id := "u1", email := "user@example.com", role := "user",
    isActive := true, isEmailVerified := true, plan := plan0 }

def key0 : String :=
  "pdf_live_" ++ String.mk (List.replicate 64 'a')

def apiKey0 : ApiKey :=
  { id := "k1", keyHash := "sha0", encryptedKey := some "enc0",
    keyType := ApiKeyType.live, isActive := true, isRevoked := false,
    expiresAt := none, allowedDomains := [], lastUsedAt := none,
    uaMeta := none, user := user0 }

def hashFn0 : String → String := fun s => "#" ++ s

def findByHash0 : String → Option ApiKey :=
  fun h => if h == hashFn0 key0 then some apiKey0 else none

/-- Plan with a breached daily limit and a monthly limit of `0`,
exercising the truthiness branch of the daily-denial result. -/
def planCE : Plan :=
  { plan0 with dailyRequestLimit := some 5, monthlyRequestLimit := some 0 }

def userCE : User :=
  { user0 with plan := planCE }

def authEnv0 : AuthService.AuthEnv :=
  { jwtVerify := fun s =>
      if s == "T0" then some { sub := "u1", email := "user@example.com", role := "user" }
      else none
    h := fun s => "#" ++ s
    signAccess := fun _ => "A1"
    signRefresh := fun _ => "T1"
    findUser := fun i => if i == "u1" then some user0 else none
    now := 1000 }

def row0 : AuthService.RefreshTokenRow :=
  { token := "#T0", userId := "u1", expiresAt := 999999, isRevoked := false,
    revokedAt := none, replacedByToken := none, ipAddress := none,
    userAgent := none }

def rows0 : List AuthService.RefreshTokenRow := [row0]

end Fixtures

/-! # Theorems -/

namespace ApiKeysService

lemma keyFormatValid_empty (pfx : String) : keyFormatValid pfx "" = false := by
  simp [keyFormatValid, hex64]

lemma keyFormatValid_ne_empty {pfx key : String}
    (h : keyFormatValid pfx key = true) : key ≠ "" := by
  intro he
  rw [he, keyFormatValid_empty] at h
  exact Bool.false_ne_true h

/-- Claim C1: validation by raw key applies its checks in exactly the
order format validity (rejecting before any storage lookup), existence
of the hashed credential, active flag, revoked flag, expiry, owning
user active flag and the domain allowlist; the first failing check
short-circuits with its specific reason string, and every successful
validation updates `lastUsedAt` and returns the user and the credential
with `encryptedKey` set to null and `keyHash` emptied. -/
theorem c1_validate_api_key_checks
    (cfg : Config) (now : Int) (hashFn : String → String)
    (findByHash : String → Option ApiKey) (key : String)
    (uaReq : Option String) :
    (keyFormatValid cfg.apiKeyPfx key = false →
      validateApiKey cfg now hashFn findByHash key uaReq
        = vFail "Invalid API key format") ∧
    (keyFormatValid cfg.apiKeyPfx key = true →
      findByHash (hashFn key) = none →
      validateApiKey cfg now hashFn findByHash key uaReq
        = vFail "API key not found") ∧
    (∀ k : ApiKey, keyFormatValid cfg.apiKeyPfx key = true →
      findByHash (hashFn key) = some k →
      ((k.isActive = false →
         validateApiKey cfg now hashFn findByHash key uaReq
           = vFail "API key is disabled") ∧
       (k.isActive = true → k.isRevoked = true →
         validateApiKey cfg now hashFn findByHash key uaReq
           = vFail "API key has been revoked") ∧
       (k.isActive = true → k.isRevoked = false → isExpired k now = true →
         validateApiKey cfg now hashFn findByHash key uaReq
           = vFail "API key has expired") ∧
       (k.isActive = true → k.isRevoked = false → isExpired k now = false →
         k.user.isActive = false →
         validateApiKey cfg now hashFn findByHash key uaReq
           = vFail "User account is deactivated") ∧
       (k.isActive = true → k.isRevoked = false → isExpired k now = false →
         k.user.isActive = true →
         validateApiKey cfg now hashFn findByHash key uaReq
           = ({ isValid := true
                user := some k.user
                apiKey := some (stripSensitive
                  { k with lastUsedAt := some now, uaMeta := uaReq })
                reason := none },
              some { k with lastUsedAt := some now, uaMeta := uaReq })))) := by
  refine ⟨?_, ?_, ?_⟩
  · intro hfmt
    by_cases hk : key = ""
    · simp [validateApiKey, hk]
    · simp [validateApiKey, hk, hfmt]
  · intro hfmt hfind
    have hk := keyFormatValid_ne_empty hfmt
    simp [validateApiKey, hk, hfmt, hfind]
  · intro k hfmt hfind
    have hk := keyFormatValid_ne_empty hfmt
    refine ⟨?_, ?_, ?_, ?_, ?_⟩
    · intro hA
      simp [validateApiKey, hk, hfmt, hfind, hA]
    · intro hA hR
      simp [validateApiKey, hk, hfmt, hfind, hA, hR]
    · intro hA hR hE
      simp [validateApiKey, hk, hfmt, hfind, hA, hR, hE]
    · intro hA hR hE hU
      simp [validateApiKey, hk, hfmt, hfind, hA, hR, hE, hU]
    · intro hA hR hE hU
      simp [validateApiKey, hk, hfmt, hfind, hA, hR, hE, hU, isDomainAllowed,
        stripSensitive]

/-- Witness for C1: a well-formed live key present in storage with all
flags healthy validates successfully, with `lastUsedAt` set and the
sensitive fields stripped. -/
theorem c1_validate_api_key_checks_witness :
    validateApiKey Fixtures.cfg0 5 Fixtures.hashFn0 Fixtures.findByHash0
        Fixtures.key0 none
      = ({ isValid := true
           user := some Fixtures.user0
           apiKey := some (stripSensitive
             { Fixtures.apiKey0 with lastUsedAt := some 5, uaMeta := none })
           reason := none },
         some { Fixtures.apiKey0 with lastUsedAt := some 5, uaMeta := none }) := by
  have h := (c1_validate_api_key_checks Fixtures.cfg0 5 Fixtures.hashFn0
    Fixtures.findByHash0 Fixtures.key0 none).2.2 Fixtures.apiKey0
    (by decide) (by decide)
  exact h.2.2.2.2 rfl rfl rfl rfl

/-- Claim C10: `isDomainAllowed` returns `true` unconditionally, so
neither validation entry point can ever deny with the domain reason, and
the `allowedDomains` list has no effect on the allow/deny outcome or the
reason of either validator. -/
theorem c10_domain_check_unreachable :
    (∀ ua ds, isDomainAllowed ua ds = true) ∧
    (∀ cfg now hashFn findByHash key ua,
      (validateApiKey cfg now hashFn findByHash key ua).1.reason
        ≠ some "API key access denied from this domain") ∧
    (∀ now findById apiKeyId ua,
      (validateApiKeyById now findById apiKeyId ua).1.reason
        ≠ some "API key access denied from this domain") ∧
    (∀ cfg now hashFn key ua (k : ApiKey) (ds dsTwo : List String),
      (validateApiKey cfg now hashFn
          (fun _ => some { k with allowedDomains := ds }) key ua).1.isValid
        = (validateApiKey cfg now hashFn
          (fun _ => some { k with allowedDomains := dsTwo }) key ua).1.isValid
      ∧ (validateApiKey cfg now hashFn
          (fun _ => some { k with allowedDomains := ds }) key ua).1.reason
        = (validateApiKey cfg now hashFn
          (fun _ => some { k with allowedDomains := dsTwo }) key ua).1.reason) ∧
    (∀ now apiKeyId ua (k : ApiKey) (ds dsTwo : List String),
      (validateApiKeyById now
          (fun _ => some { k with allowedDomains := ds }) apiKeyId ua).1.isValid
        = (validateApiKeyById now
          (fun _ => some { k with allowedDomains := dsTwo }) apiKeyId ua).1.isValid
      ∧ (validateApiKeyById now
          (fun _ => some { k with allowedDomains := ds }) apiKeyId ua).1.reason
        = (validateApiKeyById now
          (fun _ => some { k with allowedDomains := dsTwo }) apiKeyId ua).1.reason) := by
  refine ⟨fun _ _ => rfl, ?_, ?_, ?_, ?_⟩
  · intro cfg now hashFn findByHash key ua
    unfold validateApiKey vFail
    repeat' split
    all_goals simp_all [isDomainAllowed]
  · intro now findById apiKeyId ua
    unfold validateApiKeyById vFail
    repeat' split
    all_goals simp_all [isDomainAllowed]
  · intro cfg now hashFn key ua k ds dsTwo
    unfold validateApiKey vFail
    simp only [isDomainAllowed, Bool.not_true, Bool.and_false]
    repeat' split
    all_goals simp_all [isExpired]
  · intro now apiKeyId ua k ds dsTwo
    unfold validateApiKeyById vFail
    simp only [isDomainAllowed, Bool.not_true, Bool.and_false]
    repeat' split
    all_goals simp_all [isExpired]

/-- Witness for C10: the fixture validation run cannot carry the domain
denial reason. -/
theorem c10_domain_check_unreachable_witness :
    (validateApiKey Fixtures.cfg0 5 Fixtures.hashFn0 Fixtures.findByHash0
        Fixtures.key0 none).1.reason
      ≠ some "API key access denied from this domain" :=
  c10_domain_check_unreachable.2.1 Fixtures.cfg0 5 Fixtures.hashFn0
    Fixtures.findByHash0 Fixtures.key0 none

end ApiKeysService

namespace QuotaService

lemma quotaBreached_eq_some {enforce : Bool} {lim : Option Int} {used l : Int} :
    quotaBreached enforce lim used = some l ↔
      enforce = true ∧ lim = some l ∧ used ≥ l := by
  cases enforce <;> cases lim <;> simp [quotaBreached]
  constructor <;> (intro h ; omega)

lemma jsSubOrNull_eq_none {lim : Option Int} {used : Int} :
    jsSubOrNull lim used = none ↔ lim = none ∨ lim = some 0 := by
  cases lim <;> simp [jsSubOrNull, jsTruthyInt]

/-- Claim C2: for non-test credentials `checkQuota` evaluates the daily
limit first (only under daily enforcement with a non-null limit) and the
monthly limit second (same conditions); the first breached limit fixes
the denial reason string, and every result reports both usage figures
and both remaining fields. -/
theorem c2_check_quota_order
    (cfg : Config) (t : ApiKeyType) (u : User) (d m : Int)
    (ht : t ≠ ApiKeyType.test) :
    (∀ (enforce : Bool) (lim : Option Int) (used l : Int),
      quotaBreached enforce lim used = some l ↔
        enforce = true ∧ lim = some l ∧ used ≥ l) ∧
    (∀ dl : Int,
      quotaBreached cfg.enforceDailyQuota u.plan.dailyRequestLimit d = some dl →
      checkQuota cfg t u d m =
        { allowed := false
          reason := some ("Daily quota exceeded. Limit: " ++ toString dl
            ++ " requests per day.")
          quotaInfo :=
            { dailyUsed := d
              dailyLimit := some dl
              monthlyUsed := m
              monthlyLimit := u.plan.monthlyRequestLimit
              remainingDaily := some 0
              remainingMonthly := jsSubOrNull u.plan.monthlyRequestLimit m } }) ∧
    (∀ ml : Int,
      quotaBreached cfg.enforceDailyQuota u.plan.dailyRequestLimit d = none →
      quotaBreached cfg.enforceMonthlyQuota u.plan.monthlyRequestLimit m = some ml →
      checkQuota cfg t u d m =
        { allowed := false
          reason := some ("Monthly quota exceeded. Limit: " ++ toString ml
            ++ " requests per month.")
          quotaInfo :=
            { dailyUsed := d
              dailyLimit := u.plan.dailyRequestLimit
              monthlyUsed := m
              monthlyLimit := some ml
              remainingDaily := jsSubOrNull u.plan.dailyRequestLimit d
              remainingMonthly := some 0 } }) ∧
    (quotaBreached cfg.enforceDailyQuota u.plan.dailyRequestLimit d = none →
      quotaBreached cfg.enforceMonthlyQuota u.plan.monthlyRequestLimit m = none →
      checkQuota cfg t u d m =
        { allowed := true
          reason := none
          quotaInfo :=
            { dailyUsed := d
              dailyLimit := u.plan.dailyRequestLimit
              monthlyUsed := m
              monthlyLimit := u.plan.monthlyRequestLimit
              remainingDaily := optSub u.plan.dailyRequestLimit d
              remainingMonthly := optSub u.plan.monthlyRequestLimit m } }) := by
  refine ⟨fun enforce lim used l => quotaBreached_eq_some, ?_, ?_, ?_⟩
  · intro dl hB
    have hd : u.plan.dailyRequestLimit = some dl :=
      (quotaBreached_eq_some.mp hB).2.1
    simp only [checkQuota, if_neg ht, hB]
    rw [hd]
  · intro ml hD hM
    have hm : u.plan.monthlyRequestLimit = some ml :=
      (quotaBreached_eq_some.mp hM).2.1
    simp only [checkQuota, if_neg ht, hD, hM]
    rw [hm]
  · intro hD hM
    simp [checkQuota, ht, hD, hM]

/-- Witness for C2: on the Free plan fixture with a reached daily limit,
the denial carries the daily reason and both remaining fields. -/
theorem c2_check_quota_order_witness :
    checkQuota Fixtures.cfg0 ApiKeyType.live Fixtures.user0 100 7 =
      { allowed := false
        reason := some "Daily quota exceeded. Limit: 100 requests per day."
        quotaInfo :=
          { dailyUsed := 100
            dailyLimit := some 100
            monthlyUsed := 7
            monthlyLimit := some 3000
            remainingDaily := some 0
            remainingMonthly := some 2993 } } := by
  have h := (c2_check_quota_order Fixtures.cfg0 ApiKeyType.live Fixtures.user0
    100 7 (by decide)).2.1 100 (by decide)
  simpa [Fixtures.user0, Fixtures.plan0, jsSubOrNull, jsTruthyInt] using h

/-- Counterexample for C5: with a breached daily limit and a monthly
limit of exactly 0 (non-null), the daily-denial result reports
`remainingMonthly` as null, refuting "remaining is null if and only if
the limit is null". -/
theorem c5_remaining_null_iff_cex :
    (checkQuota Fixtures.cfg0 ApiKeyType.live Fixtures.userCE 5 0).quotaInfo.remainingMonthly
        = none
      ∧ Fixtures.userCE.plan.monthlyRequestLimit = some 0 := by
  decide

/-- Claim C5 as amended: in an allowed result remaining is null exactly
when the limit is null (and equals limit minus usage otherwise); in a
denial result the breached period reports remaining 0, but the
remaining of the other period is computed with a JavaScript truthiness
test, so it is null exactly when that limit is null or 0. -/
theorem c5_remaining_null_amended
    (cfg : Config) (t : ApiKeyType) (u : User) (d m : Int)
    (ht : t ≠ ApiKeyType.test) :
    ((checkQuota cfg t u d m).allowed = true →
      (((checkQuota cfg t u d m).quotaInfo.remainingDaily = none
          ↔ u.plan.dailyRequestLimit = none) ∧
       (∀ l : Int, u.plan.dailyRequestLimit = some l →
          (checkQuota cfg t u d m).quotaInfo.remainingDaily = some (l - d)) ∧
       ((checkQuota cfg t u d m).quotaInfo.remainingMonthly = none
          ↔ u.plan.monthlyRequestLimit = none) ∧
       (∀ l : Int, u.plan.monthlyRequestLimit = some l →
          (checkQuota cfg t u d m).quotaInfo.remainingMonthly = some (l - m)))) ∧
    (quotaBreached cfg.enforceDailyQuota u.plan.dailyRequestLimit d ≠ none →
      ((checkQuota cfg t u d m).quotaInfo.remainingDaily = some 0 ∧
       ((checkQuota cfg t u d m).quotaInfo.remainingMonthly = none
          ↔ (u.plan.monthlyRequestLimit = none
            ∨ u.plan.monthlyRequestLimit = some 0)))) ∧
    (quotaBreached cfg.enforceDailyQuota u.plan.dailyRequestLimit d = none →
      quotaBreached cfg.enforceMonthlyQuota u.plan.monthlyRequestLimit m ≠ none →
      ((checkQuota cfg t u d m).quotaInfo.remainingMonthly = some 0 ∧
       ((checkQuota cfg t u d m).quotaInfo.remainingDaily = none
          ↔ (u.plan.dailyRequestLimit = none
            ∨ u.plan.dailyRequestLimit = some 0)))) := by
  refine ⟨?_, ?_, ?_⟩
  · intro hA
    cases hD : quotaBreached cfg.enforceDailyQuota u.plan.dailyRequestLimit d with
    | some l =>
      rw [show checkQuota cfg t u d m
          = checkQuota cfg t u d m from rfl] at hA
      simp only [checkQuota, if_neg ht, hD] at hA
      simp at hA
    | none =>
      cases hM : quotaBreached cfg.enforceMonthlyQuota u.plan.monthlyRequestLimit m with
      | some l =>
        simp only [checkQuota, if_neg ht, hD, hM] at hA
        simp at hA
      | none =>
        refine ⟨?_, ?_, ?_, ?_⟩
        · simp only [checkQuota, if_neg ht, hD, hM]
          cases hl : u.plan.dailyRequestLimit <;> simp [optSub, hl]
        · intro l hl
          simp only [checkQuota, if_neg ht, hD, hM]
          simp [optSub, hl]
        · simp only [checkQuota, if_neg ht, hD, hM]
          cases hl : u.plan.monthlyRequestLimit <;> simp [optSub, hl]
        · intro l hl
          simp only [checkQuota, if_neg ht, hD, hM]
          simp [optSub, hl]
  · intro hD
    rcases hx : quotaBreached cfg.enforceDailyQuota u.plan.dailyRequestLimit d with - | l
    · exact absurd hx hD
    · refine ⟨?_, ?_⟩
      · simp [checkQuota, ht, hx]
      · simp only [checkQuota, if_neg ht, hx]
        simp [jsSubOrNull_eq_none]
  · intro hD hM
    rcases hx : quotaBreached cfg.enforceMonthlyQuota u.plan.monthlyRequestLimit m with - | l
    · exact absurd hx hM
    · refine ⟨?_, ?_⟩
      · simp [checkQuota, ht, hD, hx]
      · simp only [checkQuota, if_neg ht, hD, hx]
        simp [jsSubOrNull_eq_none]

/-- Witness for C5 (amended): an allowed fixture result has remaining
equal to limit minus usage for both periods. -/
theorem c5_remaining_null_amended_witness :
    (checkQuota Fixtures.cfg0 ApiKeyType.live Fixtures.user0 3 4).quotaInfo.remainingDaily
      = some 97 := by
  have h := ((c5_remaining_null_amended Fixtures.cfg0 ApiKeyType.live
    Fixtures.user0 3 4 (by decide)).1 (by decide)).2.1 100 (by decide)
  simpa using h

/-- Claim C6: reading a usage counter returns the cached value when it is
positive; otherwise it returns the durable ledger count and backfills
the cache with that count (daily TTL 86400, monthly TTL
daysInMonth·86400) exactly when the count is positive — a zero durable
count is returned but never cached. -/
theorem c6_usage_read_fallback (cache : Option Int) (db : Int) (dim : Int) :
    (getCounter cache > 0 →
      getDailyUsage cache db = (getCounter cache, none) ∧
      getMonthlyUsage cache db dim = (getCounter cache, none)) ∧
    (getCounter cache ≤ 0 →
      ((getDailyUsage cache db).1 = db ∧
       (getMonthlyUsage cache db dim).1 = db ∧
       ((getDailyUsage cache db).2 = some (db, 86400) ↔ db > 0) ∧
       ((getMonthlyUsage cache db dim).2 = some (db, dim * 86400) ↔ db > 0) ∧
       (db ≤ 0 → (getDailyUsage cache db).2 = none
          ∧ (getMonthlyUsage cache db dim).2 = none))) := by
  constructor
  · intro h
    simp [getDailyUsage, getMonthlyUsage, h]
  · intro h
    have h' : ¬ getCounter cache > 0 := by omega
    by_cases hdb : db > 0
    · simp [getDailyUsage, getMonthlyUsage, h', hdb]
    · simp [getDailyUsage, getMonthlyUsage, h', hdb]

/-- Witness for C6: after eviction (empty cache) with 3 durable records,
the read returns 3 and repopulates the daily cache with TTL 86400. -/
theorem c6_usage_read_fallback_witness :
    getDailyUsage none 3 = (3, some (3, 86400)) := by
  have h := ((c6_usage_read_fallback none 3 30).2 (by decide)).2.2.1.mpr (by decide)
  have h1 := ((c6_usage_read_fallback none 3 30).2 (by decide)).1
  exact Prod.ext h1 h

/-- Counterexample for C4: a first daily increment performed one hour
into the day (time 3600) receives expiry 3600 + 86400 = 90000, not the
end of the current calendar day (86400) the claim requires. -/
theorem c4_first_increment_ttl_cex :
    (incrementUsage 3600 30 none none).1.expiresAt = 90000
      ∧ specEndOfDay 3600 = 86400
      ∧ (incrementUsage 3600 30 none none).1.expiresAt ≠ specEndOfDay 3600 := by
  decide

/-- Claim C4 as amended: the first increment of a period counter sets a
fixed-length expiry measured from the increment time — now + 86400
seconds for the daily counter and now + daysInMonth·86400 seconds for
the monthly counter — not an expiry aligned to the calendar period end;
the daily window always covers at least the remainder of the calendar
day, and non-first increments leave the expiry unchanged. -/
theorem c4_first_increment_ttl_amended (now dim : Int)
    (daily monthly : Option CounterEntry) :
    ((incrementUsage now dim none monthly).1
        = { value := 1, expiresAt := now + 86400 }) ∧
    ((incrementUsage now dim daily none).2
        = { value := 1, expiresAt := now + dim * 86400 }) ∧
    (∀ e : CounterEntry, e.value ≥ 1 →
      (incrementUsage now dim (some e) monthly).1
        = { value := e.value + 1, expiresAt := e.expiresAt }) ∧
    (0 ≤ now → specEndOfDay now ≤ now + 86400) := by
  refine ⟨?_, ?_, ?_, ?_⟩
  · simp [incrementUsage, incrementCounter]
  · simp [incrementUsage, incrementCounter]
  · intro e he
    have hne : ¬ (e.value + 1 = 1) := by omega
    simp [incrementUsage, incrementCounter, hne]
  · intro h
    unfold specEndOfDay
    omega

/-- Witness for C4 (amended): the concrete first increment at time 3600
gets the fixed 24-hour window, which covers the rest of the day. -/
theorem c4_first_increment_ttl_amended_witness :
    (incrementUsage 3600 30 none none).1 = { value := 1, expiresAt := 90000 }
      ∧ specEndOfDay 3600 ≤ 90000 := by
  have h := c4_first_increment_ttl_amended 3600 30 none none
  exact ⟨by simpa using h.1, by simpa using h.2.2.2 (by decide)⟩

end QuotaService

namespace EncryptionService

lemma length_mk (l : List Char) : (String.mk l).length = l.length := rfl

lemma length_append_str (s t : String) :
    (s ++ t).length = s.length + t.length :=
  String.length_append s t

/-- Counterexample for C9: a 10-character key with 8 visible suffix
characters falls in the gap `visibleChars < length < visibleChars + 4`,
where `"*".repeat(10 - 4 - 8)` receives a negative count and raises a
`RangeError` instead of returning a display string. -/
theorem c9_mask_key_cex :
    maskKey "abcdefghij" 8 = none ∧ ("abcdefghij").length = 10 := by
  decide

/-- Claim C9 as amended: `maskKey` returns a same-length display string
when the key is no longer than `visibleChars` (fully masked) or at least
`visibleChars + 4` long (first 4 kept, last `visibleChars` kept, the
middle starred); for lengths strictly between it raises a `RangeError`
rather than returning. -/
theorem c9_mask_key_amended (key : String) (vis : Nat) :
    (key.length ≤ vis →
      maskKey key vis = some (String.mk (List.replicate key.length '*')) ∧
      (String.mk (List.replicate key.length '*')).length = key.length) ∧
    (vis < key.length → key.length < vis + 4 → maskKey key vis = none) ∧
    (vis + 4 ≤ key.length →
      maskKey key vis = some (jsSubstring key 0 4
        ++ String.mk (List.replicate (key.length - 4 - vis) '*')
        ++ jsSubstring key (key.length - vis) key.length) ∧
      (jsSubstring key 0 4
        ++ String.mk (List.replicate (key.length - 4 - vis) '*')
        ++ jsSubstring key (key.length - vis) key.length).length
          = key.length) := by
  refine ⟨?_, ?_, ?_⟩
  · intro h
    refine ⟨by simp [maskKey, h], ?_⟩
    simp [length_mk]
  · intro h1 h2
    have hn : ¬ key.length ≤ vis := by omega
    have hneg : ((key.length : Int) - 4 - vis) < 0 := by omega
    simp [maskKey, hn, jsRepeat, hneg]
  · intro h
    have hn : ¬ key.length ≤ vis := by omega
    have hpos : ¬ ((key.length : Int) - 4 - vis) < 0 := by omega
    have htn : ((key.length : Int) - 4 - vis).toNat = key.length - 4 - vis := by
      omega
    refine ⟨by simp [maskKey, hn, jsRepeat, hpos, htn], ?_⟩
    have hd : key.data.length = key.length := rfl
    simp [length_append_str, jsSubstring, length_mk, List.length_take,
      List.length_drop, hd]
    omega

/-- Witness for C9 (amended): masking the fixture raw key with 8 visible
characters keeps the first 4 and last 8 characters and has the length of
the key. -/
theorem c9_mask_key_amended_witness :
    maskKey Fixtures.key0 8 = some (jsSubstring Fixtures.key0 0 4
      ++ String.mk (List.replicate (Fixtures.key0.length - 4 - 8) '*')
      ++ jsSubstring Fixtures.key0 (Fixtures.key0.length - 8)
          Fixtures.key0.length) := by
  exact ((c9_mask_key_amended Fixtures.key0 8).2.2 (by decide)).1

/-- Claim C8: configured encryption key material shorter than 32 bytes
is stretched by the deterministic scrypt KDF with the fixed salt
`"salt"`; material of 32 bytes or more is truncated to exactly its first
32 bytes; the effective key always has exactly 32 bytes. -/
theorem c8_encryption_key_derivation
    (scrypt : String → String → Nat → List Nat)
    (hscrypt : ∀ p s n, (scrypt p s n).length = n) (keyString : String) :
    (getEncryptionKey scrypt keyString).length = 32 ∧
    (keyString.length < 32 →
      getEncryptionKey scrypt keyString = scrypt keyString "salt" 32) ∧
    (32 ≤ keyString.length →
      getEncryptionKey scrypt keyString = (strBytes keyString).take 32) := by
  refine ⟨?_, ?_, ?_⟩
  · unfold getEncryptionKey
    split
    · exact hscrypt _ _ _
    · rename_i h
      have hb : (strBytes keyString).length = keyString.length := by
        rw [strBytes, List.length_map]
        rfl
      simp [List.length_take, hb]
      omega
  · intro h
    simp [getEncryptionKey, h]
  · intro h
    have hn : ¬ keyString.length < 32 := by omega
    simp [getEncryptionKey, hn]

/-- Witness for C8: a short configured key is replaced by the KDF
output of the requested 32-byte length. -/
theorem c8_encryption_key_derivation_witness :
    getEncryptionKey (fun _ _ n => List.replicate n 0) "short"
      = List.replicate 32 0 := by
  have h := (c8_encryption_key_derivation (fun _ _ n => List.replicate n 0)
    (fun p s n => by simp) "short").2.1 (by decide)
  simpa using h

end EncryptionService

namespace PdfProxyService

open QuotaService

/-- Claim C7: on both billable PDF paths the usage counters are
incremented exactly when the request reaches a successful outcome —
quota denial, an oversize input, a conversion-service error, an
oversize output or a page-limit breach all leave the counters
untouched, and the increment happens only once every check and the
conversion itself have succeeded. -/
theorem c7_increment_only_after_success
    (quota : QuotaCheck) (htmlBytes : Int) (plan : Plan)
    (conv : Except Unit PdfOutcome) :
    ((generatePdfFromHtml quota htmlBytes plan conv).2
        = isOkE (generatePdfFromHtml quota htmlBytes plan conv).1) ∧
    ((generatePdfFromUrl quota plan conv).2
        = isOkE (generatePdfFromUrl quota plan conv).1) ∧
    (quota.allowed = false →
      (generatePdfFromHtml quota htmlBytes plan conv).2 = false ∧
      (generatePdfFromUrl quota plan conv).2 = false) ∧
    (htmlBytes > plan.maxFileSizeMB * 1024 * 1024 →
      (generatePdfFromHtml quota htmlBytes plan conv).2 = false) ∧
    (conv = Except.error () →
      (generatePdfFromHtml quota htmlBytes plan conv).2 = false ∧
      (generatePdfFromUrl quota plan conv).2 = false) ∧
    (∀ out : PdfOutcome, conv = Except.ok out →
      out.fileSize > plan.maxFileSizeMB * 1024 * 1024 →
      (generatePdfFromHtml quota htmlBytes plan conv).2 = false ∧
      (generatePdfFromUrl quota plan conv).2 = false) ∧
    (∀ out : PdfOutcome, conv = Except.ok out →
      jsTruthyInt plan.maxPagesPerPdf = true →
      (match out.pagesHeader with | none => 1 | some p => p)
          > plan.maxPagesPerPdf.getD 0 →
      (generatePdfFromHtml quota htmlBytes plan conv).2 = false ∧
      (generatePdfFromUrl quota plan conv).2 = false) ∧
    (quota.allowed = true →
      ¬ htmlBytes > plan.maxFileSizeMB * 1024 * 1024 →
      ∀ out : PdfOutcome, conv = Except.ok out →
      ¬ out.fileSize > plan.maxFileSizeMB * 1024 * 1024 →
      ¬ (jsTruthyInt plan.maxPagesPerPdf = true ∧
          (match out.pagesHeader with | none => 1 | some p => p)
            > plan.maxPagesPerPdf.getD 0) →
      (generatePdfFromHtml quota htmlBytes plan conv)
        = (Except.ok (out.fileSize,
            match out.pagesHeader with | none => 1 | some p => p), true) ∧
      (generatePdfFromUrl quota plan conv)
        = (Except.ok (out.fileSize,
            match out.pagesHeader with | none => 1 | some p => p), true)) := by
  refine ⟨?_, ?_, ?_, ?_, ?_, ?_, ?_, ?_⟩
  · simp only [generatePdfFromHtml]
    repeat' split
    all_goals rfl
  · simp only [generatePdfFromUrl]
    repeat' split
    all_goals rfl
  · intro h
    constructor
    · simp only [generatePdfFromHtml]
      repeat' split
      all_goals simp_all
    · simp only [generatePdfFromUrl]
      repeat' split
      all_goals simp_all
  · intro h
    simp only [generatePdfFromHtml]
    repeat' split
    all_goals simp_all
  · intro h
    constructor
    · simp only [generatePdfFromHtml]
      repeat' split
      all_goals simp_all
    · simp only [generatePdfFromUrl]
      repeat' split
      all_goals simp_all
  · intro out hc hf
    constructor
    · simp only [generatePdfFromHtml]
      repeat' split
      all_goals simp_all
    · simp only [generatePdfFromUrl]
      repeat' split
      all_goals simp_all
  · intro out hc hj hp
    constructor
    · simp only [generatePdfFromHtml]
      repeat' split
      all_goals simp_all
    · simp only [generatePdfFromUrl]
      repeat' split
      all_goals simp_all
  · intro hq hh out hc hf hnp
    have hcond : (jsTruthyInt plan.maxPagesPerPdf && decide
        ((match out.pagesHeader with | none => 1 | some p => p)
          > plan.maxPagesPerPdf.getD 0)) = false := by
      cases hb : jsTruthyInt plan.maxPagesPerPdf with
      | false => simp [hb]
      | true =>
        simp only [hb, Bool.true_and]
        exact decide_eq_false (fun hgt => hnp ⟨hb, hgt⟩)
    constructor
    · simp [generatePdfFromHtml, hq, hh, hc, hf, hcond]
    · simp [generatePdfFromUrl, hq, hc, hf, hcond]

/-- Witness for C7: an allowed request whose conversion succeeds within
the size and page limits returns the PDF payload and increments the
counters. -/
theorem c7_increment_only_after_success_witness :
    generatePdfFromHtml
        (checkQuota Fixtures.cfg0 ApiKeyType.live Fixtures.user0 0 0)
        10 Fixtures.plan0 (Except.ok { fileSize := 1000, pagesHeader := some 2 })
      = (Except.ok (1000, 2), true) := by
  have h := ((c7_increment_only_after_success
    (checkQuota Fixtures.cfg0 ApiKeyType.live Fixtures.user0 0 0)
    10 Fixtures.plan0 (Except.ok { fileSize := 1000, pagesHeader := some 2 })
    ).2.2.2.2.2.2.2 (by decide) (by decide)
    { fileSize := 1000, pagesHeader := some 2 } rfl (by decide) (by decide)).1
  simpa using h

end PdfProxyService

namespace AuthService

lemma findStored_spec {rows : List RefreshTokenRow} {hashed uid : String}
    {st : RefreshTokenRow} (h : findStored rows hashed uid = some st) :
    st.token = hashed ∧ st.userId = uid ∧ st.isRevoked = false := by
  have hp := List.find?_some h
  simp only [Bool.and_eq_true, beq_iff_eq, Bool.not_eq_true'] at hp
  exact ⟨hp.1.1, hp.1.2, hp.2⟩

/-- Claim C3: redeeming a stored, non-revoked, non-expired refresh token
for an active user yields a fresh access/refresh pair, replaces exactly
the redeemed row by its revoked version carrying the hash of the new
refresh token, appends exactly one new row; redeeming the same raw token
against the rotated table fails; and every failure of the operation
surfaces as the single generic "Invalid or expired refresh token". -/
theorem c3_refresh_rotation
    (env : AuthEnv) (raw : String) (ip ua : Option String)
    (rows : List RefreshTokenRow) (payload : JwtPayload)
    (st : RefreshTokenRow) (user : User)
    (hjwt : env.jwtVerify raw = some payload)
    (hfind : findStored rows (env.h raw) payload.sub = some st)
    (hexp : ¬ st.expiresAt < env.now)
    (huser : env.findUser payload.sub = some user)
    (hactive : user.isActive = true)
    (hfresh : env.h (env.signRefresh (rotPayload user)) ≠ env.h raw) :
    refreshTokens env raw ip ua rows
        = Except.ok (rotResponse env user, rotRows env rows st user ip ua) ∧
    (rotRows env rows st user ip ua).length = rows.length + 1 ∧
    (∀ r ∈ rows, r.token ≠ st.token → r ∈ rotRows env rows st user ip ua) ∧
    (rotRevokedRow env st user).isRevoked = true ∧
    (rotRevokedRow env st user).replacedByToken
        = some (env.h (rotResponse env user).refreshToken) ∧
    refreshTokens env raw ip ua (rotRows env rows st user ip ua)
        = Except.error "Invalid or expired refresh token" ∧
    (∀ (env2 : AuthEnv) (raw2 : String) (ip2 ua2 : Option String)
        (rows2 : List RefreshTokenRow) (e : String),
      refreshTokens env2 raw2 ip2 ua2 rows2 = Except.error e →
      e = "Invalid or expired refresh token") := by
  obtain ⟨htok, huid, hrev⟩ := findStored_spec hfind
  refine ⟨?_, ?_, ?_, rfl, rfl, ?_, ?_⟩
  · simp only [refreshTokens, refreshTokensInner, hjwt, hfind, if_neg hexp,
      huser, hactive, rotResponse, rotRows, rotRevokedRow, rotNewRow,
      rotPayload]
    simp
  · simp [rotRows, saveRow]
  · intro r hr hne
    refine List.mem_append.mpr (Or.inl ?_)
    refine List.mem_map.mpr ⟨r, hr, ?_⟩
    simp [hne]
  · have hnone : findStored (rotRows env rows st user ip ua)
        (env.h raw) payload.sub = none := by
      apply List.find?_eq_none.mpr
      intro r hr
      rcases List.mem_append.mp hr with hmem | hmem
      · rcases List.mem_map.mp hmem with ⟨r0, hr0, rfl⟩
        by_cases ht : r0.token = st.token
        · simp [ht, rotRevokedRow]
        · have : r0.token ≠ env.h raw := by rw [← htok]; exact ht
          simp [ht, this]
      · have : r = rotNewRow env user ip ua := by simpa using hmem
        subst this
        simp [rotNewRow, hfresh]
    simp only [refreshTokens, refreshTokensInner, hjwt, hnone]
  · intro env2 raw2 ip2 ua2 rows2 e he
    simp only [refreshTokens] at he
    split at he
    · exact absurd he (by simp)
    · rw [Except.error.injEq] at he
      exact he.symm

/-- Witness for C3: redeeming the fixture token `T0` rotates the single
stored row and appends its successor; redeeming `T0` again against the
rotated table yields the generic failure. -/
theorem c3_refresh_rotation_witness :
    refreshTokens Fixtures.authEnv0 "T0" none none Fixtures.rows0
        = Except.ok (rotResponse Fixtures.authEnv0 Fixtures.user0,
            rotRows Fixtures.authEnv0 Fixtures.rows0 Fixtures.row0
              Fixtures.user0 none none)
      ∧ refreshTokens Fixtures.authEnv0 "T0" none none
            (rotRows Fixtures.authEnv0 Fixtures.rows0 Fixtures.row0
              Fixtures.user0 none none)
        = Except.error "Invalid or expired refresh token" := by
  have h := c3_refresh_rotation Fixtures.authEnv0 "T0" none none Fixtures.rows0
    { sub := "u1", email := "user@example.com", role := "user" }
    Fixtures.row0 Fixtures.user0 (by decide) (by decide) (by decide)
    (by decide) rfl (by decide)
  exact ⟨h.1, h.2.2.2.2.2.1⟩

end AuthService

end Html2Pdf
